import Mathlib

/-!
Verification of the Seeed RoboController FTServo library.

This file gives a shallow embedding, in Lean 4, of the parts of the library
that the verified properties talk about:

* `utils/data_parser.py` — byte/integer conversions and the memory-map parser;
* `config/settings.py` and `config/memory_map.py` — constants, error codes and
  memory-region descriptors;
* `modules/pid_controller.py`, `modules/safety_manager.py`,
  `modules/basic_control.py`, `modules/status_monitor.py` — the servo
  operations, modelled as pure functions over an abstract bus transport that
  also return the list of bus calls they issue;
* `core/connection_manager.py` — the connection state machine.

Machine integers are modelled as `Int`/`Nat` with explicit `% 256` style
arithmetic; Python byte strings are `List ℕ` whose entries are byte values;
Python `None`-or-value results are `Option`; Python floats are modelled as
exact rationals `ℚ`.
-/

namespace RoboController

/-! ### Error codes (`config/settings.py`, class `ErrorCodes`) -/

def COMM_SUCCESS : ℤ := 0

def ERROR_SERVO_NOT_FOUND : ℤ := -100

def ERROR_INVALID_PARAMETER : ℤ := -101

def ERROR_OPERATION_FAILED : ℤ := -102

/-! ### Servo / PID / safety configuration constants (`config/settings.py`) -/

namespace ServoConfig

def MIN_POSITION : ℤ := 0

def MAX_POSITION : ℤ := 4095

def CENTER_POSITION : ℤ := 2048

def MIN_SPEED : ℤ := 0

def MAX_SPEED : ℤ := 2047

def MIN_ACCELERATION : ℤ := 0

def MAX_ACCELERATION : ℤ := 255

def MIN_TORQUE : ℤ := 0

def MAX_TORQUE : ℤ := 2047

end ServoConfig

namespace PIDConfig

def MIN_PID_GAIN : ℤ := 0

def MAX_PID_GAIN : ℤ := 255

def MIN_STARTUP_TORQUE : ℤ := 0

def MAX_STARTUP_TORQUE : ℤ := 255

def DEFAULT_STARTUP_TORQUE : ℤ := 16

end PIDConfig

/-! ### Memory map addresses (`config/memory_map.py`, class `MemoryMap`) -/

namespace MemoryMap

def MAX_TEMPERATURE_LIMIT : ℕ := 13

def MAX_INPUT_VOLTAGE : ℕ := 14

def MIN_INPUT_VOLTAGE : ℕ := 15

def SETUP_BYTE : ℕ := 18

def POSITION_P_GAIN : ℕ := 21

def POSITION_D_GAIN : ℕ := 22

def POSITION_I_GAIN : ℕ := 23

def STARTUP_TORQUE : ℕ := 24

def SPEED_P_GAIN : ℕ := 41

def SPEED_I_GAIN_L : ℕ := 44

def SPEED_I_GAIN_H : ℕ := 45

def TORQUE_ENABLE : ℕ := 46

def GOAL_POSITION_L : ℕ := 48

def GOAL_SPEED_L : ℕ := 52

def TORQUE_LIMIT_L : ℕ := 54

def PRESENT_POSITION_L : ℕ := 57

def PRESENT_SPEED_L : ℕ := 59

def PRESENT_VOLTAGE : ℕ := 63

def PRESENT_TEMPERATURE : ℕ := 64

def SYNC_WRITE_FLAG : ℕ := 65

def HARDWARE_ERROR_STATUS : ℕ := 66

def MOVING_STATUS : ℕ := 67

def PRESENT_CURRENT_L : ℕ := 68

end MemoryMap

/-! ### Data parser (`utils/data_parser.py`, class `DataParser`)

`bytes_to_int` is Python's

```
result = 0
for i, byte in enumerate(data):
    result |= byte << (8 * i)
if signed and len(data) > 0 and (data[-1] & 0x80):
    result -= (1 << (8 * len(data)))
```

(the `struct.unpack` fast path computes the same value on byte-valued data of
length 1, 2 or 4, so the manual fallback serves as the single definition).

`int_to_bytes` first tries `struct.pack` with a format character chosen from
the length (`'h'` for 2, `'i'` for 4, `'b'` otherwise); when the value is out
of range for that format it falls back to the manual loop
`result[i] = (value >> (8 * i)) & 0xFF`. Both paths produce the little-endian
bytes of `value` (mod 2^(8·size)), where `size` is the struct size on the fast
path and the requested `length` on the fallback.
-/

/-- Little-endian accumulation of a byte list: `result |= byte << (8 * i)`. -/
def leValue : List ℕ → ℤ
  | [] => 0
  | b :: rest => (b : ℤ) + 256 * leValue rest

/-- Little-endian bytes of an integer: `(value >> (8 * i)) & 0xFF` for
`i in range(n)` (Python `>>` is a floor shift and `& 0xFF` a nonnegative
remainder, i.e. `Int.ediv`/`Int.emod`). -/
def leBytes (value : ℤ) : ℕ → List ℕ
  | 0 => []
  | n + 1 => (value % 256).toNat :: leBytes (value / 256) n

/-- Python `DataParser.bytes_to_int(data, signed)`: empty data gives 0;
otherwise a little-endian accumulation, sign-extended when `signed` and the
top bit of the last byte (`data[-1] & 0x80`) is set. -/
def bytes_to_int (data : List ℕ) (signed : Bool) : ℤ :=
  match data.getLast? with
  | none => 0
  | some last =>
      let result := leValue data
      if signed && last.testBit 7 then result - 2 ^ (8 * data.length) else result

/-- Byte size of the struct format character `int_to_bytes` selects:
`'h'` when `length == 2`, `'i'` when `length == 4`, else `'b'`. -/
def structSize (length : ℕ) : ℕ :=
  if length = 2 then 2 else if length = 4 then 4 else 1

/-- Whether `struct.pack` succeeds: the value fits the (un)signed range of the
selected format. -/
def structFits (value : ℤ) (size : ℕ) (signed : Bool) : Bool :=
  if signed then
    decide (-(2 ^ (8 * size - 1)) ≤ value ∧ value < 2 ^ (8 * size - 1))
  else
    decide (0 ≤ value ∧ value < 2 ^ (8 * size))

/-- Python `DataParser.int_to_bytes(value, length, signed)`: `struct.pack`
with the format selected from `length` when the value fits (producing
`structSize length` little-endian bytes), else the manual fallback producing
`length` little-endian bytes. -/
def int_to_bytes (value : ℤ) (length : ℕ) (signed : Bool) : List ℕ :=
  let size := structSize length
  if structFits value size signed then leBytes value size else leBytes value length

/-- Python `DataParser.parse_position`: signed 2-byte parse. -/
def parse_position (data : List ℕ) : ℤ := bytes_to_int data true

/-- Python `DataParser.parse_speed`: signed parse. -/
def parse_speed (data : List ℕ) : ℤ := bytes_to_int data true

/-- Python `DataParser.parse_current`: signed parse. -/
def parse_current (data : List ℕ) : ℤ := bytes_to_int data true

/-- Python `DataParser.parse_voltage`: unsigned parse divided by 10.0. -/
def parse_voltage (data : List ℕ) : ℚ := (bytes_to_int data false : ℚ) / 10

/-- Python `DataParser.parse_temperature`: unsigned parse. -/
def parse_temperature (data : List ℕ) : ℤ := bytes_to_int data false

/-- Bit 7 of a byte value is set exactly when the value is at least 128. -/
lemma testBit7_eq (n : ℕ) (h : n < 256) : n.testBit 7 = decide (128 ≤ n) := by
  rw [Nat.testBit_to_div_mod, decide_eq_decide]
  omega

/-- C3: for every integer `v` and byte-width `w ∈ {1, 2, 4}`, if `v` lies in
the representable signed range for `w` bytes then
`bytes_to_int(int_to_bytes(v, w, signed=True), signed=True) = v`. -/
theorem bytes_to_int_int_to_bytes_signed (v : ℤ) (w : ℕ)
    (hw : w = 1 ∨ w = 2 ∨ w = 4)
    (hlo : -(2 ^ (8 * w - 1)) ≤ v) (hhi : v < 2 ^ (8 * w - 1)) :
    bytes_to_int (int_to_bytes v w true) true = v := by
  rcases hw with rfl | rfl | rfl
  · norm_num at hlo hhi
    have hfits : structFits v (structSize 1) true = true := by
      simp only [structSize, structFits]
      norm_num
      omega
    rw [int_to_bytes, hfits, if_pos rfl]
    show bytes_to_int (leBytes v 1) true = v
    simp only [leBytes]
    have hbit : (v % 256).toNat.testBit 7
        = decide (128 ≤ (v % 256).toNat) := testBit7_eq _ (by omega)
    simp [bytes_to_int, List.getLast?, leValue, hbit]
    split <;> omega
  · norm_num at hlo hhi
    have hfits : structFits v (structSize 2) true = true := by
      simp only [structSize, structFits]
      norm_num
      omega
    rw [int_to_bytes, hfits, if_pos rfl]
    show bytes_to_int (leBytes v 2) true = v
    simp only [leBytes]
    have hbit : ((v / 256) % 256).toNat.testBit 7
        = decide (128 ≤ ((v / 256) % 256).toNat) := testBit7_eq _ (by omega)
    simp [bytes_to_int, List.getLast?, leValue, hbit]
    split <;> omega
  · norm_num at hlo hhi
    have hfits : structFits v (structSize 4) true = true := by
      simp only [structSize, structFits]
      norm_num
      omega
    rw [int_to_bytes, hfits, if_pos rfl]
    show bytes_to_int (leBytes v 4) true = v
    simp only [leBytes]
    have hbit : ((((v / 256) / 256) / 256) % 256).toNat.testBit 7
        = decide (128 ≤ ((((v / 256) / 256) / 256) % 256).toNat) :=
      testBit7_eq _ (by omega)
    simp [bytes_to_int, List.getLast?, leValue, hbit]
    split <;> omega

/-- C3 witness: the round trip at `v = -12345`, `w = 2`. -/
theorem bytes_to_int_int_to_bytes_signed_witness :
    bytes_to_int (int_to_bytes (-12345) 2 true) true = -12345 :=
  bytes_to_int_int_to_bytes_signed (-12345) 2 (Or.inr (Or.inl rfl))
    (by decide) (by decide)

/-! ### Bus transport model

The servo modules talk to the hardware through
`self.connection.protocol_handler` (the scservo SDK handler) and through the
connection manager's `read_memory` / `write_memory` wrappers, which forward to
`protocol_handler.readTxRx` / `writeTxRx`. A `Transport` packages the handler
methods as pure functions, and `connected` models
`is_connected and protocol_handler is not None` (the two are set and cleared
together by `connect` / `_cleanup`). The `has…` flags model Python `hasattr`
checks on the handler; `hasattr(None, …)` is `False`, so module code guards
them together with `connected`.

Every module operation returns, besides its Python return value, the list of
bus calls it issued, in order.
-/

/-- One call issued to the bus transport. -/
inductive Call where
  | unlock (servo_id : ℕ)
  | lock (servo_id : ℕ)
  | read (servo_id address length : ℕ)
  | write (servo_id address : ℕ) (length : ℕ) (data : List ℤ)
  | writePosEx (servo_id : ℕ) (position speed acc torque : ℤ)
  | readPos (servo_id : ℕ)
  | readSpeed (servo_id : ℕ)
  deriving DecidableEq

/-- The bus transport: the protocol handler's methods as pure functions. -/
structure Transport where
  connected : Bool
  unLockEprom : ℕ → ℤ × Option String
  LockEprom : ℕ → ℤ × Option String
  readTxRx : ℕ → ℕ → ℕ → Option (List ℕ) × ℤ × Option String
  writeTxRx : ℕ → ℕ → ℕ → List ℤ → ℤ × Option String
  hasWritePosEx : Bool
  WritePosEx : ℕ → ℤ → ℤ → ℤ → ℤ → ℤ × Option String
  hasReadPos : Bool
  ReadPos : ℕ → ℤ × ℤ × Option String
  hasReadSpeed : Bool
  ReadSpeed : ℕ → ℤ × ℤ × Option String

/-- The error string `"未连接"` returned by the connection manager when no
port is open. -/
def notConnectedMsg : String := "未连接"

/-- Stands for `str(e)` of the `AttributeError` raised when module code calls
a method on `protocol_handler` while it is `None`; the module's `except`
clause turns it into an error return. -/
def attributeErrorMsg : String := "AttributeError"

/-- Stands for `str(e)` of the `TypeError` raised when Python compares or
masks a `None` value; the enclosing `except` clause turns it into an error
return. -/
def typeErrorMsg : String := "TypeError"

/-- Python `ConnectionManager.read_memory`: forwards to
`protocol_handler.readTxRx`, or fails with `"未连接"` (and no bus traffic)
when not connected. -/
def read_memory (t : Transport) (servo_id address length : ℕ) :
    (Option (List ℕ) × ℤ × Option String) × List Call :=
  if t.connected then
    (t.readTxRx servo_id address length, [Call.read servo_id address length])
  else
    ((none, ERROR_OPERATION_FAILED, some notConnectedMsg), [])

/-- Python `ConnectionManager.write_memory`: forwards to
`protocol_handler.writeTxRx`, or fails with `"未连接"` (and no bus traffic)
when not connected. -/
def write_memory (t : Transport) (servo_id address : ℕ) (length : ℕ)
    (data : List ℤ) : (ℤ × Option String) × List Call :=
  if t.connected then
    (t.writeTxRx servo_id address length data, [Call.write servo_id address length data])
  else
    ((ERROR_OPERATION_FAILED, some notConnectedMsg), [])

/-! ### PID controller (`modules/pid_controller.py`) -/

/-- Python `PIDController.write_position_pid(servo_id, p_gain, i_gain, d_gain)`:
validate each gain against `[MIN_PID_GAIN, MAX_PID_GAIN]`, unlock the EEPROM
(short-circuiting on a non-zero unlock result), write the P (addr 21), I
(addr 23) and D (addr 22) gains, short-circuiting on each failure, then lock
the EEPROM and return success. -/
def write_position_pid (t : Transport) (servo_id : ℕ) (p_gain i_gain d_gain : ℤ) :
    (ℤ × Option String) × List Call :=
  if ¬(PIDConfig.MIN_PID_GAIN ≤ p_gain ∧ p_gain ≤ PIDConfig.MAX_PID_GAIN) then
    ((ERROR_INVALID_PARAMETER, some ("P增益超出范围: " ++ toString p_gain)), [])
  else if ¬(PIDConfig.MIN_PID_GAIN ≤ i_gain ∧ i_gain ≤ PIDConfig.MAX_PID_GAIN) then
    ((ERROR_INVALID_PARAMETER, some ("I增益超出范围: " ++ toString i_gain)), [])
  else if ¬(PIDConfig.MIN_PID_GAIN ≤ d_gain ∧ d_gain ≤ PIDConfig.MAX_PID_GAIN) then
    ((ERROR_INVALID_PARAMETER, some ("D增益超出范围: " ++ toString d_gain)), [])
  else if ¬ t.connected then
    ((ERROR_OPERATION_FAILED, some attributeErrorMsg), [])
  else
    let (unlock_result, unlock_error) := t.unLockEprom servo_id
    if unlock_result ≠ 0 then ((unlock_result, unlock_error), [Call.unlock servo_id])
    else
      let ((p_result, p_error), tr1) :=
        write_memory t servo_id MemoryMap.POSITION_P_GAIN 1 [p_gain]
      if p_result ≠ 0 then ((p_result, p_error), Call.unlock servo_id :: tr1)
      else
        let ((i_result, i_error), tr2) :=
          write_memory t servo_id MemoryMap.POSITION_I_GAIN 1 [i_gain]
        if i_result ≠ 0 then ((i_result, i_error), (Call.unlock servo_id :: tr1) ++ tr2)
        else
          let ((d_result, d_error), tr3) :=
            write_memory t servo_id MemoryMap.POSITION_D_GAIN 1 [d_gain]
          if d_result ≠ 0 then
            ((d_result, d_error), (Call.unlock servo_id :: tr1) ++ tr2 ++ tr3)
          else
            let (_lock_result, _lock_error) := t.LockEprom servo_id
            ((0, none),
              (Call.unlock servo_id :: tr1) ++ tr2 ++ tr3 ++ [Call.lock servo_id])

/-- Python `PIDController.write_speed_pid(servo_id, p_gain, i_gain)`:
validate `p_gain ∈ [0, 255]` and `i_gain ∈ [-32768, 32767]`, unlock the
EEPROM (short-circuiting on failure), write the speed P gain (addr 41) and
the 2-byte signed speed I gain (addr 44), short-circuiting on each failure,
then lock the EEPROM. -/
def write_speed_pid (t : Transport) (servo_id : ℕ) (p_gain i_gain : ℤ) :
    (ℤ × Option String) × List Call :=
  if ¬(PIDConfig.MIN_PID_GAIN ≤ p_gain ∧ p_gain ≤ PIDConfig.MAX_PID_GAIN) then
    ((ERROR_INVALID_PARAMETER, some ("P增益超出范围: " ++ toString p_gain)), [])
  else if ¬(-32768 ≤ i_gain ∧ i_gain ≤ 32767) then
    ((ERROR_INVALID_PARAMETER, some ("I增益超出范围: " ++ toString i_gain)), [])
  else if ¬ t.connected then
    ((ERROR_OPERATION_FAILED, some attributeErrorMsg), [])
  else
    let (unlock_result, unlock_error) := t.unLockEprom servo_id
    if unlock_result ≠ 0 then ((unlock_result, unlock_error), [Call.unlock servo_id])
    else
      let ((p_result, p_error), tr1) :=
        write_memory t servo_id MemoryMap.SPEED_P_GAIN 1 [p_gain]
      if p_result ≠ 0 then ((p_result, p_error), Call.unlock servo_id :: tr1)
      else
        let i_data := (int_to_bytes i_gain 2 true).map Int.ofNat
        let ((i_result, i_error), tr2) :=
          write_memory t servo_id MemoryMap.SPEED_I_GAIN_L 2 i_data
        if i_result ≠ 0 then ((i_result, i_error), (Call.unlock servo_id :: tr1) ++ tr2)
        else
          let (_lock_result, _lock_error) := t.LockEprom servo_id
          ((0, none), (Call.unlock servo_id :: tr1) ++ tr2 ++ [Call.lock servo_id])

/-- Python `PIDController.write_startup_torque(servo_id, startup_torque)`:
validate the torque against `[0, 255]`, unlock the EEPROM (short-circuiting
on failure), write address 24, lock the EEPROM again, and return the write's
result pair. -/
def write_startup_torque (t : Transport) (servo_id : ℕ) (startup_torque : ℤ) :
    (ℤ × Option String) × List Call :=
  if ¬(PIDConfig.MIN_STARTUP_TORQUE ≤ startup_torque ∧
      startup_torque ≤ PIDConfig.MAX_STARTUP_TORQUE) then
    ((ERROR_INVALID_PARAMETER, some ("启动扭矩超出范围: " ++ toString startup_torque)), [])
  else if ¬ t.connected then
    ((ERROR_OPERATION_FAILED, some attributeErrorMsg), [])
  else
    let (unlock_result, unlock_error) := t.unLockEprom servo_id
    if unlock_result ≠ 0 then ((unlock_result, unlock_error), [Call.unlock servo_id])
    else
      let ((result, error), tr1) :=
        write_memory t servo_id MemoryMap.STARTUP_TORQUE 1 [startup_torque]
      let (_lock_result, _lock_error) := t.LockEprom servo_id
      ((result, error), (Call.unlock servo_id :: tr1) ++ [Call.lock servo_id])

/-! ### Safety manager (`modules/safety_manager.py`) -/

/-- Python `SafetyManager.configure_temperature_limit(servo_id, temperature_limit)`:
validate the limit against `[0, 100]`, unlock the EEPROM (short-circuiting on
failure), write address 13, lock the EEPROM again, and return the write's
result pair. -/
def configure_temperature_limit (t : Transport) (servo_id : ℕ)
    (temperature_limit : ℤ) : (ℤ × Option String) × List Call :=
  if ¬(0 ≤ temperature_limit ∧ temperature_limit ≤ 100) then
    ((ERROR_INVALID_PARAMETER, some ("温度限制超出范围: " ++ toString temperature_limit)), [])
  else if ¬ t.connected then
    ((ERROR_OPERATION_FAILED, some attributeErrorMsg), [])
  else
    let (unlock_result, unlock_error) := t.unLockEprom servo_id
    if unlock_result ≠ 0 then ((unlock_result, unlock_error), [Call.unlock servo_id])
    else
      let ((result, error), tr1) :=
        write_memory t servo_id MemoryMap.MAX_TEMPERATURE_LIMIT 1 [temperature_limit]
      let (_lock_result, _lock_error) := t.LockEprom servo_id
      ((result, error), (Call.unlock servo_id :: tr1) ++ [Call.lock servo_id])

/-- Python `int(x)`: truncation toward zero of a number. The voltage
arguments are Python floats, modelled as exact rationals. -/
def pyInt (q : ℚ) : ℤ := q.num.tdiv (q.den : ℤ)

/-- Python `SafetyManager.configure_voltage_limits(servo_id, min_voltage,
max_voltage)`: convert each bound to tenths of a volt (`int(v * 10)`),
validate both raw values against `[50, 250]`, unlock the EEPROM
(short-circuiting on failure), write the max (addr 14) then the min
(addr 15) limit, lock the EEPROM again, and return the first failing write's
result pair (or the second write's pair when the first succeeded). -/
def configure_voltage_limits (t : Transport) (servo_id : ℕ)
    (min_voltage max_voltage : ℚ) : (ℤ × Option String) × List Call :=
  let min_voltage_10 := pyInt (min_voltage * 10)
  let max_voltage_10 := pyInt (max_voltage * 10)
  if ¬(50 ≤ min_voltage_10 ∧ min_voltage_10 ≤ 250) then
    ((ERROR_INVALID_PARAMETER, some ("最小电压超出范围: " ++ toString min_voltage ++ "V")), [])
  else if ¬(50 ≤ max_voltage_10 ∧ max_voltage_10 ≤ 250) then
    ((ERROR_INVALID_PARAMETER, some ("最大电压超出范围: " ++ toString max_voltage ++ "V")), [])
  else if ¬ t.connected then
    ((ERROR_OPERATION_FAILED, some attributeErrorMsg), [])
  else
    let (unlock_result, unlock_error) := t.unLockEprom servo_id
    if unlock_result ≠ 0 then ((unlock_result, unlock_error), [Call.unlock servo_id])
    else
      let ((result1, error1), tr1) :=
        write_memory t servo_id MemoryMap.MAX_INPUT_VOLTAGE 1 [max_voltage_10]
      let ((result2, error2), tr2) :=
        write_memory t servo_id MemoryMap.MIN_INPUT_VOLTAGE 1 [min_voltage_10]
      let (_lock_result, _lock_error) := t.LockEprom servo_id
      let final_result := if result1 ≠ 0 then result1 else result2
      let final_error := if result1 ≠ 0 then error1 else error2
      ((final_result, final_error),
        (Call.unlock servo_id :: tr1) ++ tr2 ++ [Call.lock servo_id])

/-! ### Basic control (`modules/basic_control.py`) -/

/-- Python `BasicControl.write_position(servo_id, position, speed,
acceleration)`: validate position `[0, 4095]`, speed `[0, 2047]` and
acceleration `[0, 255]` (returning `ERROR_INVALID_PARAMETER` with the
offending value named, before any bus traffic); then either call the SDK's
`WritePosEx` with maximum torque, or fall back to a direct 2-byte write of
the goal position. -/
def write_position (t : Transport) (servo_id : ℕ)
    (position speed acceleration : ℤ) : (ℤ × Option String) × List Call :=
  if ¬(ServoConfig.MIN_POSITION ≤ position ∧ position ≤ ServoConfig.MAX_POSITION) then
    ((ERROR_INVALID_PARAMETER, some ("位置超出范围: " ++ toString position)), [])
  else if ¬(ServoConfig.MIN_SPEED ≤ speed ∧ speed ≤ ServoConfig.MAX_SPEED) then
    ((ERROR_INVALID_PARAMETER, some ("速度超出范围: " ++ toString speed)), [])
  else if ¬(ServoConfig.MIN_ACCELERATION ≤ acceleration ∧
      acceleration ≤ ServoConfig.MAX_ACCELERATION) then
    ((ERROR_INVALID_PARAMETER, some ("加速度超出范围: " ++ toString acceleration)), [])
  else if t.connected && t.hasWritePosEx then
    (t.WritePosEx servo_id position speed acceleration ServoConfig.MAX_TORQUE,
      [Call.writePosEx servo_id position speed acceleration ServoConfig.MAX_TORQUE])
  else
    let position_data := (int_to_bytes position 2 false).map Int.ofNat
    write_memory t servo_id MemoryMap.GOAL_POSITION_L 2 position_data

/-- Python `BasicControl.read_position(servo_id)`: either the SDK's `ReadPos`,
or a direct 2-byte read of the present position parsed as a signed value
(`None` when the read fails or returns no data). -/
def read_position (t : Transport) (servo_id : ℕ) :
    (Option ℤ × ℤ × Option String) × List Call :=
  if t.connected && t.hasReadPos then
    let (position, result, error) := t.ReadPos servo_id
    ((some position, result, error), [Call.readPos servo_id])
  else
    let ((data?, result, error), tr) :=
      read_memory t servo_id MemoryMap.PRESENT_POSITION_L 2
    let position? :=
      match data? with
      | some data =>
          if result = COMM_SUCCESS ∧ data ≠ [] then some (parse_position data) else none
      | none => none
    ((position?, result, error), tr)

/-- Python `BasicControl.stop_servo(servo_id)`: read the current position;
when the read fails, return its `(result, error)` pair unchanged; otherwise
command the current position as the goal with speed 0 and acceleration 0. A
successful read that produced no position value (`None`) makes the subsequent
`write_position` comparison raise a `TypeError`, which the `except` clause
maps to `ERROR_OPERATION_FAILED`. -/
def stop_servo (t : Transport) (servo_id : ℕ) : (ℤ × Option String) × List Call :=
  let ((current_pos, result, error), tr1) := read_position t servo_id
  if result ≠ COMM_SUCCESS then ((result, error), tr1)
  else
    match current_pos with
    | some p =>
        let (res, tr2) := write_position t servo_id p 0 0
        (res, tr1 ++ tr2)
    | none => ((ERROR_OPERATION_FAILED, some typeErrorMsg), tr1)

/-! ### Python subscriptable values and `set_pid_params`

`PIDController.set_pid_params` accepts any subscriptable value for
`position_pid` / `speed_pid` and indexes it with the integer keys 0, 1, 2.
A Python list `[a, b, c]` is the association list
`[(.int 0, a), (.int 1, b), (.int 2, c)]`; a dict such as
`PIDConfig.DEFAULT_POSITION_PID = {'P': 32, 'I': 0, 'D': 32}` is
`[(.str "P", 32), (.str "I", 0), (.str "D", 32)]`. Subscripting with a key
the collection does not have raises `KeyError(key)`, modelled with
`Except PyKey`.
-/

/-- A Python subscript key: an integer index or a string key. -/
inductive PyKey where
  | int (n : ℤ)
  | str (s : String)
  deriving DecidableEq

/-- A Python subscriptable collection of integers (list or dict). -/
abbrev PyIntDict := List (PyKey × ℤ)

/-- Python subscripting `d[k]`: the value at `k`, or `KeyError(k)`. -/
def dictGet (d : PyIntDict) (k : PyKey) : Except PyKey ℤ :=
  match d.find? (fun p => p.1 == k) with
  | some p => Except.ok p.2
  | none => Except.error k

/-- Python `PIDConfig.DEFAULT_POSITION_PID = {'P': 32, 'I': 0, 'D': 32}`. -/
def DEFAULT_POSITION_PID : PyIntDict :=
  [(PyKey.str "P", 32), (PyKey.str "I", 0), (PyKey.str "D", 32)]

/-- Python `PIDConfig.DEFAULT_SPEED_PID = {'P': 10, 'I': 200}`. -/
def DEFAULT_SPEED_PID : PyIntDict :=
  [(PyKey.str "P", 10), (PyKey.str "I", 200)]

/-- Python `PIDController.set_pid_params(servo_id, position_pid, speed_pid,
startup_torque)`: apply the position PID when a truthy value of length 3 was
passed (subscripting it at 0, 1, 2 — an uncaught `KeyError` for dicts with
string keys), the speed PID when a truthy value of length 2 was passed, and
the startup torque when not `None`; return whether every attempted write
succeeded, together with the accumulated bus calls. -/
def set_pid_params (t : Transport) (servo_id : ℕ)
    (position_pid speed_pid : Option PyIntDict) (startup_torque : Option ℤ) :
    Except PyKey (Bool × List Call) := do
  let (ok1, tr1) ← (do
    match position_pid with
    | some pid =>
        if pid ≠ [] ∧ pid.length = 3 then do
          let a ← dictGet pid (PyKey.int 0)
          let b ← dictGet pid (PyKey.int 1)
          let c ← dictGet pid (PyKey.int 2)
          let ((result, _error), tr) := write_position_pid t servo_id a b c
          pure (result == 0, tr)
        else pure (true, [])
    | none => pure (true, ([] : List Call)))
  let (ok2, tr2) ← (do
    match speed_pid with
    | some pid =>
        if pid ≠ [] ∧ pid.length = 2 then do
          let a ← dictGet pid (PyKey.int 0)
          let b ← dictGet pid (PyKey.int 1)
          let ((result, _error), tr) := write_speed_pid t servo_id a b
          pure (result == 0, tr)
        else pure (true, [])
    | none => pure (true, ([] : List Call)))
  let (ok3, tr3) ← (do
    match startup_torque with
    | some torque =>
        let ((result, _error), tr) := write_startup_torque t servo_id torque
        pure (result == 0, tr)
    | none => pure (true, ([] : List Call)))
  pure (ok1 && ok2 && ok3, tr1 ++ tr2 ++ tr3)

/-- Python `PIDController.reset_pid_to_default(servo_id)`: `set_pid_params`
with `PIDConfig.DEFAULT_POSITION_PID`, `PIDConfig.DEFAULT_SPEED_PID` and
`PIDConfig.DEFAULT_STARTUP_TORQUE`. -/
def reset_pid_to_default (t : Transport) (servo_id : ℕ) :
    Except PyKey (Bool × List Call) :=
  set_pid_params t servo_id (some DEFAULT_POSITION_PID) (some DEFAULT_SPEED_PID)
    (some PIDConfig.DEFAULT_STARTUP_TORQUE)

/-! ### Memory regions (`config/memory_map.py` and `utils/data_parser.py`) -/

/-- One of the `MemoryRegions` descriptors: `{'start': …, 'end': …,
'description': …}` (the Python `end` key is the field `stop`). -/
structure Region where
  start : ℕ
  stop : ℕ
  description : String
  deriving DecidableEq

namespace MemoryRegions

def EPROM_READONLY : Region := ⟨0, 4, "固件信息区域 - 只读"⟩

def EPROM_CONFIG : Region := ⟨5, 17, "基本配置区域 - 读写"⟩

def EPROM_PID : Region := ⟨21, 45, "PID控制参数区域 - 读写"⟩

def SRAM_CONTROL : Region := ⟨46, 56, "实时控制区域 - 读写"⟩

def SRAM_STATUS : Region := ⟨57, 69, "状态反馈区域 - 只读"⟩

def DEFAULT_PARAMS : Region := ⟨80, 86, "默认参数区域 - 系统级"⟩

end MemoryRegions

/-- Whether an address falls inside a region descriptor (inclusive bounds). -/
def regionContains (r : Region) (address : ℕ) : Bool :=
  decide (r.start ≤ address ∧ address ≤ r.stop)

/-- Python `MemoryMapParser.__init__`'s `self.regions` dict, in insertion
order: name ↦ (start, end). -/
def parserRegions : List (String × ℕ × ℕ) :=
  [("eprom_readonly", 0, 4), ("eprom_config", 5, 17), ("eprom_advanced", 18, 45),
    ("sram_control", 46, 56), ("sram_status", 57, 69), ("default_params", 80, 86)]

/-- Python `MemoryMapParser.get_region_info(address)`: the name of the first
region whose inclusive `[start, end]` range contains the address, else
`None`. -/
def get_region_info (address : ℕ) : Option String :=
  (parserRegions.find? (fun r => decide (r.2.1 ≤ address ∧ address ≤ r.2.2))).map
    (fun r => r.1)

/-! ### Status monitor (`modules/status_monitor.py`)

`get_complete_status` builds a nested dict. Each `Option`-valued field below
is `none` when the corresponding key was never assigned; for keys whose
assigned value can itself be Python `None`, the field is an
`Option (Option _)`. The `timestamp` key (wall-clock time) is not modelled.
The whole body runs under `try`: a `TypeError` raised when a `None` slips
into a comparison or bit mask makes the `except` clause set the `error` key
(field `pyError`) and return the partially built status.
-/

/-- The dict built by `StatusMonitor.get_complete_status`. -/
structure CompleteStatus where
  position : Option ℤ := none
  speed : Option ℤ := none
  temperature : Option (Option ℤ) := none
  temperature_limit : Option (Option ℤ) := none
  temperature_usage : Option ℚ := none
  temp_warning_level : Option String := none
  voltage : Option (Option ℚ) := none
  current : Option (Option ℤ) := none
  hardware_error : Option (Option ℤ) := none
  sync_status : Option Bool := none
  errors : List String := []
  pyError : Option String := none
  deriving DecidableEq

/-- Python truthiness of an optional integer: `None` and `0` are falsy. -/
def pyTruthyInt : Option ℤ → Bool
  | none => false
  | some v => v != 0

/-- Python `StatusMonitor.read_temperature(servo_id)`: a 1-byte read of
address 64, parsed unsigned; `None` when the read fails or gives no data. -/
def read_temperature (t : Transport) (servo_id : ℕ) :
    (Option ℤ × ℤ × Option String) × List Call :=
  let ((data?, result, error), tr) :=
    read_memory t servo_id MemoryMap.PRESENT_TEMPERATURE 1
  let value? :=
    match data? with
    | some data =>
        if result = 0 ∧ data ≠ [] then some (parse_temperature data) else none
    | none => none
  ((value?, result, error), tr)

/-- Python `StatusMonitor.read_temperature_limit(servo_id)`: unlock the
EEPROM (result ignored), read one byte at address 13, lock the EEPROM again
(result ignored), and parse unsigned. When the handler is absent the unlock
raises `AttributeError`, mapped by the `except` clause to `(None, -1, msg)`. -/
def read_temperature_limit (t : Transport) (servo_id : ℕ) :
    (Option ℤ × ℤ × Option String) × List Call :=
  if ¬ t.connected then ((none, -1, some attributeErrorMsg), [])
  else
    let (_unlock_result, _unlock_error) := t.unLockEprom servo_id
    let ((data?, result, error), tr) := read_memory t servo_id 13 1
    let (_lock_result, _lock_error) := t.LockEprom servo_id
    let value? :=
      match data? with
      | some data =>
          if result = 0 ∧ data ≠ [] then some (parse_temperature data) else none
      | none => none
    ((value?, result, error), (Call.unlock servo_id :: tr) ++ [Call.lock servo_id])

/-- Python `StatusMonitor.read_voltage(servo_id)`: a 1-byte read of address
63, parsed as tenths of a volt. -/
def read_voltage (t : Transport) (servo_id : ℕ) :
    (Option ℚ × ℤ × Option String) × List Call :=
  let ((data?, result, error), tr) :=
    read_memory t servo_id MemoryMap.PRESENT_VOLTAGE 1
  let value? :=
    match data? with
    | some data =>
        if result = 0 ∧ data ≠ [] then some (parse_voltage data) else none
    | none => none
  ((value?, result, error), tr)

/-- Python `StatusMonitor.read_current(servo_id)`: a 2-byte read of address
68, parsed signed, requiring at least two data bytes. -/
def read_current (t : Transport) (servo_id : ℕ) :
    (Option ℤ × ℤ × Option String) × List Call :=
  let ((data?, result, error), tr) :=
    read_memory t servo_id MemoryMap.PRESENT_CURRENT_L 2
  let value? :=
    match data? with
    | some data =>
        if result = 0 ∧ data ≠ [] ∧ 2 ≤ data.length then some (parse_current data)
        else none
    | none => none
  ((value?, result, error), tr)

/-- Python `StatusMonitor.read_hardware_error_status(servo_id)`: a 1-byte
read of address 66, parsed unsigned. -/
def read_hardware_error_status (t : Transport) (servo_id : ℕ) :
    (Option ℤ × ℤ × Option String) × List Call :=
  let ((data?, result, error), tr) :=
    read_memory t servo_id MemoryMap.HARDWARE_ERROR_STATUS 1
  let value? :=
    match data? with
    | some data =>
        if result = 0 ∧ data ≠ [] then some (bytes_to_int data false) else none
    | none => none
  ((value?, result, error), tr)

/-- Python `StatusMonitor._parse_hardware_errors(error_status)`: one message
per set error bit (the status is a nonnegative byte; `& 0x01` … `& 0x20` are
bit tests). -/
def parse_hardware_errors (error_status : ℤ) : List String :=
  (if error_status.toNat.testBit 0 then ["输入电压错误"] else []) ++
  (if error_status.toNat.testBit 1 then ["角度传感器错误"] else []) ++
  (if error_status.toNat.testBit 2 then ["过热错误"] else []) ++
  (if error_status.toNat.testBit 3 then ["过载错误"] else []) ++
  (if error_status.toNat.testBit 4 then ["电子错误"] else []) ++
  (if error_status.toNat.testBit 5 then ["过流错误"] else [])

/-- The `basic` section of `get_complete_status`: `ReadPos` / `ReadSpeed`
when the handler has them. -/
def gcsBasic (t : Transport) (servo_id : ℕ) : CompleteStatus :=
  let position :=
    if t.connected && t.hasReadPos then
      let (p, r, _e) := t.ReadPos servo_id
      if r = 0 then some p else none
    else none
  let speed :=
    if t.connected && t.hasReadSpeed then
      let (s, r, _e) := t.ReadSpeed servo_id
      if r = 0 then some s else none
    else none
  { position := position, speed := speed }

/-- The temperature block of `get_complete_status`: store the temperature on
a successful read and pass the raw `temperature` variable on. -/
def gcsTempStep (t : Transport) (servo_id : ℕ) (st : CompleteStatus) :
    CompleteStatus × Option ℤ :=
  let ((temp?, result, _error), _tr) := read_temperature t servo_id
  ((if result = 0 then { st with temperature := some temp? } else st), temp?)

/-- The temperature-limit block of `get_complete_status`: on a successful
limit read, store the limit; then, only when the `temperature` variable is
truthy (non-`None` and non-zero), derive `temperature_usage` (the ratio, or
0 for a non-positive limit) and the four-level `temp_warning_level`. A
`None` limit inside the comparison raises `TypeError` (`Except.error`). -/
def gcsLimitStep (t : Transport) (servo_id : ℕ) (temperature : Option ℤ)
    (st : CompleteStatus) : Except CompleteStatus CompleteStatus :=
  let ((temp_limit?, result, _error), _tr) := read_temperature_limit t servo_id
  if result = 0 then
    let st1 := { st with temperature_limit := some temp_limit? }
    if pyTruthyInt temperature then
      match temperature, temp_limit? with
      | some v, some limit =>
          let usage_ratio : ℚ := if limit > 0 then (v : ℚ) / (limit : ℚ) else 0
          let st2 := { st1 with temperature_usage := some usage_ratio }
          let level :=
            if usage_ratio ≥ 9/10 then "critical"
            else if usage_ratio ≥ 8/10 then "warning"
            else if usage_ratio ≥ 6/10 then "caution"
            else "normal"
          Except.ok { st2 with temp_warning_level := some level }
      | some _, none => Except.error { st1 with pyError := some typeErrorMsg }
      | none, _ => Except.ok st1
    else Except.ok st1
  else Except.ok st

/-- The voltage block of `get_complete_status`. -/
def gcsVoltageStep (t : Transport) (servo_id : ℕ) (st : CompleteStatus) :
    CompleteStatus :=
  let ((voltage?, result, _error), _tr) := read_voltage t servo_id
  if result = 0 then { st with voltage := some voltage? } else st

/-- The current block of `get_complete_status`. -/
def gcsCurrentStep (t : Transport) (servo_id : ℕ) (st : CompleteStatus) :
    CompleteStatus :=
  let ((current?, result, _error), _tr) := read_current t servo_id
  if result = 0 then { st with current := some current? } else st

/-- The hardware-error block of `get_complete_status`: store the value, then
parse its bits into `errors` (a `None` value raises `TypeError` during the
bit mask, after the store). -/
def gcsHwStep (t : Transport) (servo_id : ℕ) (st : CompleteStatus) :
    Except CompleteStatus CompleteStatus :=
  let ((hw?, result, _error), _tr) := read_hardware_error_status t servo_id
  if result = 0 then
    match hw? with
    | some e =>
        Except.ok { st with
          hardware_error := some (some e)
          errors := parse_hardware_errors e }
    | none =>
        Except.error { st with
          hardware_error := some none
          pyError := some typeErrorMsg }
  else Except.ok st

/-- The sync-status block of `get_complete_status`: a direct 1-byte read of
address 65; `bool(sync_data[0])` on success with truthy data. -/
def gcsSyncStep (t : Transport) (servo_id : ℕ) (st : CompleteStatus) :
    CompleteStatus :=
  let ((sync_data?, result, _error), _tr) :=
    read_memory t servo_id MemoryMap.SYNC_WRITE_FLAG 1
  if result = 0 then
    match sync_data? with
    | some (d0 :: _) => { st with sync_status := some (d0 != 0) }
    | _ => st
  else st

/-- The `try` body of `get_complete_status`, with `Except.error` carrying the
partially built status at the point a `TypeError` was raised: basic reads,
then the temperature, limit, voltage, current, hardware-error and sync
blocks in program order. -/
def gcsPipeline (t : Transport) (servo_id : ℕ) :
    Except CompleteStatus CompleteStatus :=
  match gcsLimitStep t servo_id (gcsTempStep t servo_id (gcsBasic t servo_id)).2
      (gcsTempStep t servo_id (gcsBasic t servo_id)).1 with
  | Except.error s => Except.error s
  | Except.ok st2 =>
      match gcsHwStep t servo_id
          (gcsCurrentStep t servo_id (gcsVoltageStep t servo_id st2)) with
      | Except.error s => Except.error s
      | Except.ok st5 => Except.ok (gcsSyncStep t servo_id st5)

/-- Python `StatusMonitor.get_complete_status(servo_id)`: the `try` body, or
— when it raised — the partially built status with the `error` key set. -/
def get_complete_status (t : Transport) (servo_id : ℕ) : CompleteStatus :=
  match gcsPipeline t servo_id with
  | Except.ok st => st
  | Except.error st => st

/-! ### Connection manager state (`core/connection_manager.py`)

`connect` opens the port, sets the baud rate, checks the requested protocol
against `CommunicationConfig.PROTOCOLS` and installs the protocol handler.
`PortEnv` abstracts whether `openPort` / `setBaudRate` succeed; the handler
is identified by its protocol name. `ConnectionManager` stores no protocol
attribute: only `protocol_handler` remembers which variant is active.
-/

/-- The keys of `CommunicationConfig.PROTOCOLS`. -/
def PROTOCOLS : List String := ["hls", "scscl", "sms_sts"]

/-- Whether `port_handler.openPort()` and `setBaudRate(...)` succeed. -/
structure PortEnv where
  openPortOk : Bool
  setBaudOk : Bool
  deriving DecidableEq

/-- The connection-relevant state of a `ConnectionManager`. -/
structure ConnState where
  is_connected : Bool
  protocol_handler : Option String
  deriving DecidableEq

/-- Python `ConnectionManager.connect(protocol='hls')`: no-op when already
connected; fail (returning `False`) when the port cannot be opened, the baud
rate cannot be set, or the protocol is unsupported; otherwise install the
protocol handler and mark the manager connected. -/
def connect (env : PortEnv) (s : ConnState) (protocol : String) :
    ConnState × Bool :=
  if s.is_connected then (s, true)
  else if ¬ env.openPortOk then (s, false)
  else if ¬ env.setBaudOk then (s, false)
  else if ¬ (protocol ∈ PROTOCOLS) then (s, false)
  else ({ is_connected := true, protocol_handler := some protocol }, true)

/-- Python `ConnectionManager.disconnect()`: `_cleanup` clears the handlers
and the connected flag; a no-op when not connected. -/
def disconnect (s : ConnState) : ConnState :=
  if s.is_connected then { is_connected := false, protocol_handler := none } else s

/-- Python `ConnectionManager.reset_connection()`:
`self.disconnect(); time.sleep(0.5); return self.connect()` — the `connect`
call passes no argument, so the parameter takes its default `'hls'`. The
sleep is not modelled. -/
def reset_connection (env : PortEnv) (s : ConnState) : ConnState × Bool :=
  connect env (disconnect s) "hls"

/-! ### Concrete transports used to evaluate the operations -/

/-- Whether a bus call writes to the servo (a register write or the
`WritePosEx` convenience call). -/
def isWriteCall : Call → Bool
  | Call.write _ _ _ _ => true
  | Call.writePosEx _ _ _ _ _ => true
  | _ => false

/-- A connected transport on which every operation succeeds. -/
def mockTransportOk : Transport where
  connected := true
  unLockEprom := fun _ => (0, none)
  LockEprom := fun _ => (0, none)
  readTxRx := fun _ _ _ => (some [0, 8], 0, none)
  writeTxRx := fun _ _ _ _ => (0, none)
  hasWritePosEx := true
  WritePosEx := fun _ _ _ _ _ => (0, none)
  hasReadPos := true
  ReadPos := fun _ => (2048, 0, none)
  hasReadSpeed := true
  ReadSpeed := fun _ => (0, 0, none)

/-- A connected transport whose EEPROM unlock fails. -/
def mockTransportUnlockFail : Transport :=
  { mockTransportOk with unLockEprom := fun _ => (-1, some "解锁失败") }

/-- A connected transport whose position read fails. -/
def mockTransportReadFail : Transport :=
  { mockTransportOk with ReadPos := fun _ => (0, -1, some "读取失败") }

/-- A connected transport without the SDK convenience methods whose
temperature register (address 64) reads 0 and whose temperature limit
(address 13) reads 70; every other register read fails. -/
def mockTransportTempZero : Transport where
  connected := true
  unLockEprom := fun _ => (0, none)
  LockEprom := fun _ => (0, none)
  readTxRx := fun _ address _ =>
    if address = 64 then (some [0], 0, none)
    else if address = 13 then (some [70], 0, none)
    else (none, -1, some "读取失败")
  writeTxRx := fun _ _ _ _ => (0, none)
  hasWritePosEx := false
  WritePosEx := fun _ _ _ _ _ => (0, none)
  hasReadPos := false
  ReadPos := fun _ => (0, -1, some "读取失败")
  hasReadSpeed := false
  ReadSpeed := fun _ => (0, -1, some "读取失败")

/-- Like `mockTransportTempZero` but with temperature 9 and limit 10, so the
usage ratio is exactly the 0.9 boundary. -/
def mockTransportTempBoundary : Transport :=
  { mockTransportTempZero with
    readTxRx := fun _ address _ =>
      if address = 64 then (some [9], 0, none)
      else if address = 13 then (some [10], 0, none)
      else (none, -1, some "读取失败") }

/-! ## Theorems -/

/-- C1 (code bug): `reset_pid_to_default` passes
`PIDConfig.DEFAULT_POSITION_PID = {'P': 32, 'I': 0, 'D': 32}` to
`set_pid_params`, which subscripts it with the integer key 0; the dict has
only the string keys, so for every transport and servo id the call raises
`KeyError(0)` instead of returning a boolean. -/
theorem reset_pid_to_default_raises_key_error (t : Transport) (servo_id : ℕ) :
    reset_pid_to_default t servo_id = Except.error (PyKey.int 0) := rfl

/-- C4: an out-of-range position, speed or acceleration makes
`write_position` return `ERROR_INVALID_PARAMETER` with a message naming the
offending value, and no bus call is issued. -/
theorem write_position_invalid_input (t : Transport) (servo_id : ℕ)
    (position speed acceleration : ℤ)
    (h : position < 0 ∨ 4095 < position ∨ speed < 0 ∨ 2047 < speed ∨
      acceleration < 0 ∨ 255 < acceleration) :
    (write_position t servo_id position speed acceleration).2 = [] ∧
    (write_position t servo_id position speed acceleration).1.1 =
      ERROR_INVALID_PARAMETER ∧
    ((write_position t servo_id position speed acceleration).1.2 =
        some ("位置超出范围: " ++ toString position) ∨
      (write_position t servo_id position speed acceleration).1.2 =
        some ("速度超出范围: " ++ toString speed) ∨
      (write_position t servo_id position speed acceleration).1.2 =
        some ("加速度超出范围: " ++ toString acceleration)) := by
  by_cases hA : (0 : ℤ) ≤ position ∧ position ≤ 4095
  · by_cases hB : (0 : ℤ) ≤ speed ∧ speed ≤ 2047
    · by_cases hC : (0 : ℤ) ≤ acceleration ∧ acceleration ≤ 255
      · exact absurd h (by omega)
      · have e : write_position t servo_id position speed acceleration =
            ((ERROR_INVALID_PARAMETER,
              some ("加速度超出范围: " ++ toString acceleration)), []) := by
          simp [write_position, ServoConfig.MIN_POSITION, ServoConfig.MAX_POSITION,
            ServoConfig.MIN_SPEED, ServoConfig.MAX_SPEED,
            ServoConfig.MIN_ACCELERATION, ServoConfig.MAX_ACCELERATION,
            hA.1, hA.2, hB.1, hB.2, hC]
        rw [e]
        exact ⟨rfl, rfl, Or.inr (Or.inr rfl)⟩
    · have e : write_position t servo_id position speed acceleration =
          ((ERROR_INVALID_PARAMETER,
            some ("速度超出范围: " ++ toString speed)), []) := by
        simp [write_position, ServoConfig.MIN_POSITION, ServoConfig.MAX_POSITION,
          ServoConfig.MIN_SPEED, ServoConfig.MAX_SPEED, hA.1, hA.2, hB]
      rw [e]
      exact ⟨rfl, rfl, Or.inr (Or.inl rfl)⟩
  · have e : write_position t servo_id position speed acceleration =
        ((ERROR_INVALID_PARAMETER,
          some ("位置超出范围: " ++ toString position)), []) := by
      simp [write_position, ServoConfig.MIN_POSITION, ServoConfig.MAX_POSITION, hA]
    rw [e]
    exact ⟨rfl, rfl, Or.inl rfl⟩

/-- C4 witness: `write_position` at position −1 fails with no bus traffic. -/
theorem write_position_invalid_input_witness :
    (write_position mockTransportOk 1 (-1) 0 0).2 = [] ∧
    (write_position mockTransportOk 1 (-1) 0 0).1.1 = ERROR_INVALID_PARAMETER ∧
    ((write_position mockTransportOk 1 (-1) 0 0).1.2 =
        some ("位置超出范围: " ++ toString (-1 : ℤ)) ∨
      (write_position mockTransportOk 1 (-1) 0 0).1.2 =
        some ("速度超出范围: " ++ toString (0 : ℤ)) ∨
      (write_position mockTransportOk 1 (-1) 0 0).1.2 =
        some ("加速度超出范围: " ++ toString (0 : ℤ))) :=
  write_position_invalid_input mockTransportOk 1 (-1) 0 0 (Or.inl (by decide))

/-- Any trace produced by `read_position` contains no write call. -/
lemma read_position_trace_no_writes (t : Transport) (servo_id : ℕ) :
    ∀ c ∈ (read_position t servo_id).2, isWriteCall c = false := by
  intro c hc
  rcases hR : t.ReadPos servo_id with ⟨p, r, e⟩
  rcases hM : t.readTxRx servo_id MemoryMap.PRESENT_POSITION_L 2 with ⟨d, r2, e2⟩
  by_cases hconn : t.connected = true
  · by_cases hrp : t.hasReadPos = true
    · simp [read_position, read_memory, hR, hM, hconn, hrp] at hc
      simp [hc, isWriteCall]
    · simp only [Bool.not_eq_true] at hrp
      simp [read_position, read_memory, hR, hM, hconn, hrp] at hc
      simp [hc, isWriteCall]
  · simp only [Bool.not_eq_true] at hconn
    simp [read_position, read_memory, hR, hM, hconn] at hc

/-- C10: when the position read inside `stop_servo` fails, `stop_servo`
returns exactly the read's `(result, error)` pair with exactly the read's
bus trace, which contains no write. -/
theorem stop_servo_read_failure (t : Transport) (servo_id : ℕ)
    (h : (read_position t servo_id).1.2.1 ≠ COMM_SUCCESS) :
    stop_servo t servo_id =
      (((read_position t servo_id).1.2.1, (read_position t servo_id).1.2.2),
        (read_position t servo_id).2) ∧
    ∀ c ∈ (stop_servo t servo_id).2, isWriteCall c = false := by
  rcases hE : read_position t servo_id with ⟨⟨cp, r, e⟩, tr⟩
  have hr : r ≠ COMM_SUCCESS := by
    simpa [hE] using h
  constructor
  · simp [stop_servo, hE, hr]
  · intro c hc
    have htr : (stop_servo t servo_id).2 = tr := by
      simp [stop_servo, hE, hr]
    rw [htr] at hc
    have := read_position_trace_no_writes t servo_id c
    rw [hE] at this
    exact this hc

/-- C10 witness: on a transport whose `ReadPos` fails, `stop_servo` forwards
the failure and issues only the read. -/
theorem stop_servo_read_failure_witness :
    stop_servo mockTransportReadFail 1 =
      (((read_position mockTransportReadFail 1).1.2.1,
        (read_position mockTransportReadFail 1).1.2.2),
        (read_position mockTransportReadFail 1).2) ∧
    ∀ c ∈ (stop_servo mockTransportReadFail 1).2, isWriteCall c = false :=
  stop_servo_read_failure mockTransportReadFail 1 (by decide)

/-- C6 counterexample: a manager connected with `'scscl'` reconnects, after
`reset_connection`, with the default `'hls'` handler instead of the previous
protocol. -/
theorem reset_connection_protocol_counterexample :
    (connect ⟨true, true⟩ ⟨false, none⟩ "scscl").1.protocol_handler =
      some "scscl" ∧
    (reset_connection ⟨true, true⟩
      (connect ⟨true, true⟩ ⟨false, none⟩ "scscl").1).1.protocol_handler =
      some "hls" ∧
    ("hls" : String) ≠ "scscl" := by decide

/-- C6 (amended): `reset_connection` disconnects and reconnects with the
default protocol `'hls'` (Python's default argument), regardless of the
protocol the manager was previously connected with. -/
theorem reset_connection_uses_default_protocol (env : PortEnv) (p : String)
    (hopen : env.openPortOk = true) (hbaud : env.setBaudOk = true)
    (hp : p ∈ PROTOCOLS) :
    (reset_connection env (connect env ⟨false, none⟩ p).1).1.protocol_handler =
      some "hls" ∧
    (reset_connection env (connect env ⟨false, none⟩ p).1).2 = true := by
  have hhls : ("hls" : String) ∈ PROTOCOLS := by decide
  simp [reset_connection, connect, disconnect, hopen, hbaud, hp, hhls]

/-- C6 witness for the amended statement: previous protocol `'scscl'`. -/
theorem reset_connection_uses_default_protocol_witness :
    (reset_connection ⟨true, true⟩
      (connect ⟨true, true⟩ ⟨false, none⟩ "scscl").1).1.protocol_handler =
      some "hls" ∧
    (reset_connection ⟨true, true⟩
      (connect ⟨true, true⟩ ⟨false, none⟩ "scscl").1).2 = true :=
  reset_connection_uses_default_protocol ⟨true, true⟩ "scscl" rfl rfl (by decide)

/-- C7 counterexample: at `min_voltage = max_voltage = 16.0` both converted
bounds are 160 — outside the claimed range `[50, 150]` — yet
`configure_voltage_limits` does not return `ERROR_INVALID_PARAMETER` and does
talk to the bus (the validation the code performs is against `[50, 250]`). -/
theorem configure_voltage_limits_range_counterexample :
    pyInt ((16 : ℚ) * 10) = 160 ∧
    ¬(50 ≤ pyInt ((16 : ℚ) * 10) ∧ pyInt ((16 : ℚ) * 10) ≤ 150) ∧
    (configure_voltage_limits mockTransportOk 1 16 16).1.1 ≠
      ERROR_INVALID_PARAMETER ∧
    (configure_voltage_limits mockTransportOk 1 16 16).2 =
      [Call.unlock 1, Call.write 1 14 1 [160], Call.write 1 15 1 [160],
        Call.lock 1] := by
  have h160 : pyInt ((16 : ℚ) * 10) = 160 := by norm_num [pyInt]
  refine ⟨h160, ?_, ?_, ?_⟩
  · rw [h160]
    decide
  · simp [configure_voltage_limits, h160, mockTransportOk, write_memory,
      ERROR_INVALID_PARAMETER]
  · simp [configure_voltage_limits, h160, mockTransportOk, write_memory,
      MemoryMap.MAX_INPUT_VOLTAGE, MemoryMap.MIN_INPUT_VOLTAGE]

/-- C7 (amended): `configure_voltage_limits` converts each bound to tenths
of a volt by truncation and returns `ERROR_INVALID_PARAMETER` with no bus
traffic whenever either converted bound lies outside `[50, 250]`. -/
theorem configure_voltage_limits_out_of_range (t : Transport) (servo_id : ℕ)
    (min_voltage max_voltage : ℚ)
    (h : pyInt (min_voltage * 10) < 50 ∨ 250 < pyInt (min_voltage * 10) ∨
      pyInt (max_voltage * 10) < 50 ∨ 250 < pyInt (max_voltage * 10)) :
    (configure_voltage_limits t servo_id min_voltage max_voltage).1.1 =
      ERROR_INVALID_PARAMETER ∧
    (configure_voltage_limits t servo_id min_voltage max_voltage).2 = [] := by
  simp only [configure_voltage_limits]
  split_ifs with h1 h2 h3 h4 h5 <;>
    first
      | exact ⟨rfl, rfl⟩
      | exact absurd h (by omega)

/-- C7 witness for the amended statement: 30.0 V converts to 300 > 250. -/
theorem configure_voltage_limits_out_of_range_witness :
    (configure_voltage_limits mockTransportOk 1 30 12).1.1 =
      ERROR_INVALID_PARAMETER ∧
    (configure_voltage_limits mockTransportOk 1 30 12).2 = [] :=
  configure_voltage_limits_out_of_range mockTransportOk 1 30 12
    (Or.inr (Or.inl (by norm_num [pyInt])))

/-- C8 counterexample: address 18 lies in `[18, 45]` and the parser reports
it as `eprom_advanced`, but the register map's `EPROM_PID` descriptor starts
at 21 and does not contain it. -/
theorem eprom_pid_descriptor_counterexample :
    MemoryRegions.EPROM_PID.start = 21 ∧
    regionContains MemoryRegions.EPROM_PID 18 = false ∧
    get_region_info 18 = some "eprom_advanced" := by decide

/-- C8 (amended): the memory-map parser's `eprom_advanced` region spans
18–45, so every address in `[18, 45]` (including 18, 19 and 20) is reported
as belonging to it; the register map's `EPROM_PID` descriptor instead spans
21–45, containing an address of that range only from 21 on. -/
theorem eprom_advanced_region_membership (address : ℕ)
    (h18 : 18 ≤ address) (h45 : address ≤ 45) :
    get_region_info address = some "eprom_advanced" ∧
    MemoryRegions.EPROM_PID.start = 21 ∧ MemoryRegions.EPROM_PID.stop = 45 ∧
    (regionContains MemoryRegions.EPROM_PID address = true ↔ 21 ≤ address) := by
  interval_cases address <;> decide

/-- On a connected transport with a successful unlock and successful gain
writes, `write_position_pid` issues exactly unlock, the three gain writes
and lock, and returns success. -/
lemma write_position_pid_success_trace (t : Transport) (servo_id : ℕ)
    (p i d : ℤ) (hconn : t.connected = true)
    (hp : 0 ≤ p ∧ p ≤ 255) (hi : 0 ≤ i ∧ i ≤ 255) (hd : 0 ≤ d ∧ d ≤ 255)
    (hu : (t.unLockEprom servo_id).1 = 0)
    (hw1 : (t.writeTxRx servo_id MemoryMap.POSITION_P_GAIN 1 [p]).1 = 0)
    (hw2 : (t.writeTxRx servo_id MemoryMap.POSITION_I_GAIN 1 [i]).1 = 0)
    (hw3 : (t.writeTxRx servo_id MemoryMap.POSITION_D_GAIN 1 [d]).1 = 0) :
    write_position_pid t servo_id p i d =
      ((0, none),
        [Call.unlock servo_id,
          Call.write servo_id MemoryMap.POSITION_P_GAIN 1 [p],
          Call.write servo_id MemoryMap.POSITION_I_GAIN 1 [i],
          Call.write servo_id MemoryMap.POSITION_D_GAIN 1 [d],
          Call.lock servo_id]) := by
  simp [write_position_pid, write_memory, PIDConfig.MIN_PID_GAIN,
    PIDConfig.MAX_PID_GAIN, hconn, hp.1, hp.2, hi.1, hi.2, hd.1, hd.2,
    hu, hw1, hw2, hw3]

/-- When the unlock fails, `write_position_pid` returns the unlock's result
pair and issues no write. -/
lemma write_position_pid_unlock_fail (t : Transport) (servo_id : ℕ)
    (p i d : ℤ) (hconn : t.connected = true)
    (hp : 0 ≤ p ∧ p ≤ 255) (hi : 0 ≤ i ∧ i ≤ 255) (hd : 0 ≤ d ∧ d ≤ 255)
    (hu : (t.unLockEprom servo_id).1 ≠ 0) :
    write_position_pid t servo_id p i d =
      (t.unLockEprom servo_id, [Call.unlock servo_id]) := by
  simp [write_position_pid, PIDConfig.MIN_PID_GAIN, PIDConfig.MAX_PID_GAIN,
    hconn, hp.1, hp.2, hi.1, hi.2, hd.1, hd.2, hu]

/-- On a connected transport with a successful unlock and successful writes,
`write_speed_pid` issues exactly unlock, the P write, the 2-byte I write and
lock, and returns success. -/
lemma write_speed_pid_success_trace (t : Transport) (servo_id : ℕ)
    (p i : ℤ) (hconn : t.connected = true)
    (hp : 0 ≤ p ∧ p ≤ 255) (hi : -32768 ≤ i ∧ i ≤ 32767)
    (hu : (t.unLockEprom servo_id).1 = 0)
    (hw1 : (t.writeTxRx servo_id MemoryMap.SPEED_P_GAIN 1 [p]).1 = 0)
    (hw2 : (t.writeTxRx servo_id MemoryMap.SPEED_I_GAIN_L 2
      ((int_to_bytes i 2 true).map Int.ofNat)).1 = 0) :
    write_speed_pid t servo_id p i =
      ((0, none),
        [Call.unlock servo_id,
          Call.write servo_id MemoryMap.SPEED_P_GAIN 1 [p],
          Call.write servo_id MemoryMap.SPEED_I_GAIN_L 2
            ((int_to_bytes i 2 true).map Int.ofNat),
          Call.lock servo_id]) := by
  simp [write_speed_pid, write_memory, PIDConfig.MIN_PID_GAIN,
    PIDConfig.MAX_PID_GAIN, hconn, hp.1, hp.2, hi.1, hi.2, hu, hw1, hw2]

/-- When the unlock fails, `write_speed_pid` returns the unlock's result
pair and issues no write. -/
lemma write_speed_pid_unlock_fail (t : Transport) (servo_id : ℕ)
    (p i : ℤ) (hconn : t.connected = true)
    (hp : 0 ≤ p ∧ p ≤ 255) (hi : -32768 ≤ i ∧ i ≤ 32767)
    (hu : (t.unLockEprom servo_id).1 ≠ 0) :
    write_speed_pid t servo_id p i =
      (t.unLockEprom servo_id, [Call.unlock servo_id]) := by
  simp [write_speed_pid, PIDConfig.MIN_PID_GAIN, PIDConfig.MAX_PID_GAIN,
    hconn, hp.1, hp.2, hi.1, hi.2, hu]

/-- On a connected transport with a successful unlock,
`write_startup_torque` issues exactly unlock, the torque write and lock, and
returns the write's result pair. -/
lemma write_startup_torque_trace (t : Transport) (servo_id : ℕ)
    (torque : ℤ) (hconn : t.connected = true)
    (ht : 0 ≤ torque ∧ torque ≤ 255)
    (hu : (t.unLockEprom servo_id).1 = 0) :
    write_startup_torque t servo_id torque =
      (t.writeTxRx servo_id MemoryMap.STARTUP_TORQUE 1 [torque],
        [Call.unlock servo_id,
          Call.write servo_id MemoryMap.STARTUP_TORQUE 1 [torque],
          Call.lock servo_id]) := by
  simp [write_startup_torque, write_memory, PIDConfig.MIN_STARTUP_TORQUE,
    PIDConfig.MAX_STARTUP_TORQUE, hconn, ht.1, ht.2, hu]

/-- When the unlock fails, `write_startup_torque` returns the unlock's
result pair and issues no write. -/
lemma write_startup_torque_unlock_fail (t : Transport) (servo_id : ℕ)
    (torque : ℤ) (hconn : t.connected = true)
    (ht : 0 ≤ torque ∧ torque ≤ 255)
    (hu : (t.unLockEprom servo_id).1 ≠ 0) :
    write_startup_torque t servo_id torque =
      (t.unLockEprom servo_id, [Call.unlock servo_id]) := by
  simp [write_startup_torque, PIDConfig.MIN_STARTUP_TORQUE,
    PIDConfig.MAX_STARTUP_TORQUE, hconn, ht.1, ht.2, hu]

/-- On a connected transport with a successful unlock,
`configure_temperature_limit` issues exactly unlock, the limit write and
lock, and returns the write's result pair. -/
lemma configure_temperature_limit_trace (t : Transport) (servo_id : ℕ)
    (limit : ℤ) (hconn : t.connected = true)
    (hl : 0 ≤ limit ∧ limit ≤ 100)
    (hu : (t.unLockEprom servo_id).1 = 0) :
    configure_temperature_limit t servo_id limit =
      (t.writeTxRx servo_id MemoryMap.MAX_TEMPERATURE_LIMIT 1 [limit],
        [Call.unlock servo_id,
          Call.write servo_id MemoryMap.MAX_TEMPERATURE_LIMIT 1 [limit],
          Call.lock servo_id]) := by
  simp [configure_temperature_limit, write_memory, hconn, hl.1, hl.2, hu]

/-- When the unlock fails, `configure_temperature_limit` returns the
unlock's result pair and issues no write. -/
lemma configure_temperature_limit_unlock_fail (t : Transport) (servo_id : ℕ)
    (limit : ℤ) (hconn : t.connected = true)
    (hl : 0 ≤ limit ∧ limit ≤ 100)
    (hu : (t.unLockEprom servo_id).1 ≠ 0) :
    configure_temperature_limit t servo_id limit =
      (t.unLockEprom servo_id, [Call.unlock servo_id]) := by
  simp [configure_temperature_limit, hconn, hl.1, hl.2, hu]

/-- On a connected transport with a successful unlock and a successful max
write, `configure_voltage_limits` issues exactly unlock, the max write, the
min write and lock, and returns the min write's result pair. -/
lemma configure_voltage_limits_trace (t : Transport) (servo_id : ℕ)
    (min_voltage max_voltage : ℚ) (hconn : t.connected = true)
    (hmin : 50 ≤ pyInt (min_voltage * 10) ∧ pyInt (min_voltage * 10) ≤ 250)
    (hmax : 50 ≤ pyInt (max_voltage * 10) ∧ pyInt (max_voltage * 10) ≤ 250)
    (hu : (t.unLockEprom servo_id).1 = 0)
    (hw1 : (t.writeTxRx servo_id MemoryMap.MAX_INPUT_VOLTAGE 1
      [pyInt (max_voltage * 10)]).1 = 0) :
    configure_voltage_limits t servo_id min_voltage max_voltage =
      (t.writeTxRx servo_id MemoryMap.MIN_INPUT_VOLTAGE 1
          [pyInt (min_voltage * 10)],
        [Call.unlock servo_id,
          Call.write servo_id MemoryMap.MAX_INPUT_VOLTAGE 1
            [pyInt (max_voltage * 10)],
          Call.write servo_id MemoryMap.MIN_INPUT_VOLTAGE 1
            [pyInt (min_voltage * 10)],
          Call.lock servo_id]) := by
  simp [configure_voltage_limits, write_memory, hconn, hmin.1, hmin.2,
    hmax.1, hmax.2, hu, hw1]

/-- When the unlock fails, `configure_voltage_limits` returns the unlock's
result pair and issues no write. -/
lemma configure_voltage_limits_unlock_fail (t : Transport) (servo_id : ℕ)
    (min_voltage max_voltage : ℚ) (hconn : t.connected = true)
    (hmin : 50 ≤ pyInt (min_voltage * 10) ∧ pyInt (min_voltage * 10) ≤ 250)
    (hmax : 50 ≤ pyInt (max_voltage * 10) ∧ pyInt (max_voltage * 10) ≤ 250)
    (hu : (t.unLockEprom servo_id).1 ≠ 0) :
    configure_voltage_limits t servo_id min_voltage max_voltage =
      (t.unLockEprom servo_id, [Call.unlock servo_id]) := by
  simp [configure_voltage_limits, hconn, hmin.1, hmin.2, hmax.1, hmax.2, hu]

/-- C2: every PID and safety write operation brackets its register writes in
exactly `[unlock, writes…, lock]` order on a successful run, and an unlock
failure short-circuits the operation — it returns the unlock's result pair
having issued no register write. -/
theorem eeprom_write_bracketing :
    (∀ (t : Transport) (servo_id : ℕ) (p i d : ℤ),
      t.connected = true → 0 ≤ p ∧ p ≤ 255 → 0 ≤ i ∧ i ≤ 255 →
      0 ≤ d ∧ d ≤ 255 → (t.unLockEprom servo_id).1 = 0 →
      (t.writeTxRx servo_id MemoryMap.POSITION_P_GAIN 1 [p]).1 = 0 →
      (t.writeTxRx servo_id MemoryMap.POSITION_I_GAIN 1 [i]).1 = 0 →
      (t.writeTxRx servo_id MemoryMap.POSITION_D_GAIN 1 [d]).1 = 0 →
      write_position_pid t servo_id p i d =
        ((0, none),
          [Call.unlock servo_id,
            Call.write servo_id MemoryMap.POSITION_P_GAIN 1 [p],
            Call.write servo_id MemoryMap.POSITION_I_GAIN 1 [i],
            Call.write servo_id MemoryMap.POSITION_D_GAIN 1 [d],
            Call.lock servo_id])) ∧
    (∀ (t : Transport) (servo_id : ℕ) (p i d : ℤ),
      t.connected = true → 0 ≤ p ∧ p ≤ 255 → 0 ≤ i ∧ i ≤ 255 →
      0 ≤ d ∧ d ≤ 255 → (t.unLockEprom servo_id).1 ≠ 0 →
      write_position_pid t servo_id p i d =
        (t.unLockEprom servo_id, [Call.unlock servo_id])) ∧
    (∀ (t : Transport) (servo_id : ℕ) (p i : ℤ),
      t.connected = true → 0 ≤ p ∧ p ≤ 255 → -32768 ≤ i ∧ i ≤ 32767 →
      (t.unLockEprom servo_id).1 = 0 →
      (t.writeTxRx servo_id MemoryMap.SPEED_P_GAIN 1 [p]).1 = 0 →
      (t.writeTxRx servo_id MemoryMap.SPEED_I_GAIN_L 2
        ((int_to_bytes i 2 true).map Int.ofNat)).1 = 0 →
      write_speed_pid t servo_id p i =
        ((0, none),
          [Call.unlock servo_id,
            Call.write servo_id MemoryMap.SPEED_P_GAIN 1 [p],
            Call.write servo_id MemoryMap.SPEED_I_GAIN_L 2
              ((int_to_bytes i 2 true).map Int.ofNat),
            Call.lock servo_id])) ∧
    (∀ (t : Transport) (servo_id : ℕ) (p i : ℤ),
      t.connected = true → 0 ≤ p ∧ p ≤ 255 → -32768 ≤ i ∧ i ≤ 32767 →
      (t.unLockEprom servo_id).1 ≠ 0 →
      write_speed_pid t servo_id p i =
        (t.unLockEprom servo_id, [Call.unlock servo_id])) ∧
    (∀ (t : Transport) (servo_id : ℕ) (torque : ℤ),
      t.connected = true → 0 ≤ torque ∧ torque ≤ 255 →
      (t.unLockEprom servo_id).1 = 0 →
      write_startup_torque t servo_id torque =
        (t.writeTxRx servo_id MemoryMap.STARTUP_TORQUE 1 [torque],
          [Call.unlock servo_id,
            Call.write servo_id MemoryMap.STARTUP_TORQUE 1 [torque],
            Call.lock servo_id])) ∧
    (∀ (t : Transport) (servo_id : ℕ) (torque : ℤ),
      t.connected = true → 0 ≤ torque ∧ torque ≤ 255 →
      (t.unLockEprom servo_id).1 ≠ 0 →
      write_startup_torque t servo_id torque =
        (t.unLockEprom servo_id, [Call.unlock servo_id])) ∧
    (∀ (t : Transport) (servo_id : ℕ) (limit : ℤ),
      t.connected = true → 0 ≤ limit ∧ limit ≤ 100 →
      (t.unLockEprom servo_id).1 = 0 →
      configure_temperature_limit t servo_id limit =
        (t.writeTxRx servo_id MemoryMap.MAX_TEMPERATURE_LIMIT 1 [limit],
          [Call.unlock servo_id,
            Call.write servo_id MemoryMap.MAX_TEMPERATURE_LIMIT 1 [limit],
            Call.lock servo_id])) ∧
    (∀ (t : Transport) (servo_id : ℕ) (limit : ℤ),
      t.connected = true → 0 ≤ limit ∧ limit ≤ 100 →
      (t.unLockEprom servo_id).1 ≠ 0 →
      configure_temperature_limit t servo_id limit =
        (t.unLockEprom servo_id, [Call.unlock servo_id])) ∧
    (∀ (t : Transport) (servo_id : ℕ) (min_voltage max_voltage : ℚ),
      t.connected = true →
      50 ≤ pyInt (min_voltage * 10) ∧ pyInt (min_voltage * 10) ≤ 250 →
      50 ≤ pyInt (max_voltage * 10) ∧ pyInt (max_voltage * 10) ≤ 250 →
      (t.unLockEprom servo_id).1 = 0 →
      (t.writeTxRx servo_id MemoryMap.MAX_INPUT_VOLTAGE 1
        [pyInt (max_voltage * 10)]).1 = 0 →
      configure_voltage_limits t servo_id min_voltage max_voltage =
        (t.writeTxRx servo_id MemoryMap.MIN_INPUT_VOLTAGE 1
            [pyInt (min_voltage * 10)],
          [Call.unlock servo_id,
            Call.write servo_id MemoryMap.MAX_INPUT_VOLTAGE 1
              [pyInt (max_voltage * 10)],
            Call.write servo_id MemoryMap.MIN_INPUT_VOLTAGE 1
              [pyInt (min_voltage * 10)],
            Call.lock servo_id])) ∧
    (∀ (t : Transport) (servo_id : ℕ) (min_voltage max_voltage : ℚ),
      t.connected = true →
      50 ≤ pyInt (min_voltage * 10) ∧ pyInt (min_voltage * 10) ≤ 250 →
      50 ≤ pyInt (max_voltage * 10) ∧ pyInt (max_voltage * 10) ≤ 250 →
      (t.unLockEprom servo_id).1 ≠ 0 →
      configure_voltage_limits t servo_id min_voltage max_voltage =
        (t.unLockEprom servo_id, [Call.unlock servo_id])) := by
  refine ⟨?_, ?_, ?_, ?_, ?_, ?_, ?_, ?_, ?_, ?_⟩
  · intro t servo_id p i d hconn hp hi hd hu hw1 hw2 hw3
    exact write_position_pid_success_trace t servo_id p i d hconn hp hi hd hu hw1 hw2 hw3
  · intro t servo_id p i d hconn hp hi hd hu
    exact write_position_pid_unlock_fail t servo_id p i d hconn hp hi hd hu
  · intro t servo_id p i hconn hp hi hu hw1 hw2
    exact write_speed_pid_success_trace t servo_id p i hconn hp hi hu hw1 hw2
  · intro t servo_id p i hconn hp hi hu
    exact write_speed_pid_unlock_fail t servo_id p i hconn hp hi hu
  · intro t servo_id torque hconn ht hu
    exact write_startup_torque_trace t servo_id torque hconn ht hu
  · intro t servo_id torque hconn ht hu
    exact write_startup_torque_unlock_fail t servo_id torque hconn ht hu
  · intro t servo_id limit hconn hl hu
    exact configure_temperature_limit_trace t servo_id limit hconn hl hu
  · intro t servo_id limit hconn hl hu
    exact configure_temperature_limit_unlock_fail t servo_id limit hconn hl hu
  · intro t servo_id minv maxv hconn hmin hmax hu hw1
    exact configure_voltage_limits_trace t servo_id minv maxv hconn hmin hmax hu hw1
  · intro t servo_id minv maxv hconn hmin hmax hu
    exact configure_voltage_limits_unlock_fail t servo_id minv maxv hconn hmin hmax hu

/-- C2 witness: the success-path trace of `write_position_pid` on the
all-success mock, and the unlock-failure short-circuit on the
unlock-failing mock. -/
theorem eeprom_write_bracketing_witness :
    write_position_pid mockTransportOk 1 32 0 32 =
      ((0, none),
        [Call.unlock 1, Call.write 1 MemoryMap.POSITION_P_GAIN 1 [32],
          Call.write 1 MemoryMap.POSITION_I_GAIN 1 [0],
          Call.write 1 MemoryMap.POSITION_D_GAIN 1 [32], Call.lock 1]) ∧
    write_position_pid mockTransportUnlockFail 1 32 0 32 =
      (mockTransportUnlockFail.unLockEprom 1, [Call.unlock 1]) :=
  ⟨eeprom_write_bracketing.1 mockTransportOk 1 32 0 32 rfl
      (by decide) (by decide) (by decide) rfl rfl rfl rfl,
    eeprom_write_bracketing.2.1 mockTransportUnlockFail 1 32 0 32 rfl
      (by decide) (by decide) (by decide) (by decide)⟩

/-- C8 witness for the amended statement, at address 18. -/
theorem eprom_advanced_region_membership_witness :
    get_region_info 18 = some "eprom_advanced" ∧
    MemoryRegions.EPROM_PID.start = 21 ∧ MemoryRegions.EPROM_PID.stop = 45 ∧
    (regionContains MemoryRegions.EPROM_PID 18 = true ↔ 21 ≤ 18) :=
  eprom_advanced_region_membership 18 (by decide) (by decide)

/-- The voltage block touches none of the temperature fields. -/
lemma gcsVoltageStep_temp_fields (t : Transport) (servo_id : ℕ)
    (st : CompleteStatus) :
    (gcsVoltageStep t servo_id st).temperature = st.temperature ∧
    (gcsVoltageStep t servo_id st).temperature_limit = st.temperature_limit ∧
    (gcsVoltageStep t servo_id st).temperature_usage = st.temperature_usage ∧
    (gcsVoltageStep t servo_id st).temp_warning_level = st.temp_warning_level := by
  rcases hv : read_voltage t servo_id with ⟨⟨v, r, e⟩, tr⟩
  simp only [gcsVoltageStep, hv]
  split <;> exact ⟨rfl, rfl, rfl, rfl⟩

/-- The current block touches none of the temperature fields. -/
lemma gcsCurrentStep_temp_fields (t : Transport) (servo_id : ℕ)
    (st : CompleteStatus) :
    (gcsCurrentStep t servo_id st).temperature = st.temperature ∧
    (gcsCurrentStep t servo_id st).temperature_limit = st.temperature_limit ∧
    (gcsCurrentStep t servo_id st).temperature_usage = st.temperature_usage ∧
    (gcsCurrentStep t servo_id st).temp_warning_level = st.temp_warning_level := by
  rcases hc : read_current t servo_id with ⟨⟨v, r, e⟩, tr⟩
  simp only [gcsCurrentStep, hc]
  split <;> exact ⟨rfl, rfl, rfl, rfl⟩

/-- The sync block touches none of the temperature fields. -/
lemma gcsSyncStep_temp_fields (t : Transport) (servo_id : ℕ)
    (st : CompleteStatus) :
    (gcsSyncStep t servo_id st).temperature = st.temperature ∧
    (gcsSyncStep t servo_id st).temperature_limit = st.temperature_limit ∧
    (gcsSyncStep t servo_id st).temperature_usage = st.temperature_usage ∧
    (gcsSyncStep t servo_id st).temp_warning_level = st.temp_warning_level := by
  rcases hs : read_memory t servo_id MemoryMap.SYNC_WRITE_FLAG 1 with ⟨⟨d, r, e⟩, tr⟩
  simp only [gcsSyncStep, hs]
  split
  · rcases d with _ | ⟨l⟩
    · exact ⟨rfl, rfl, rfl, rfl⟩
    · rcases l with _ | ⟨d0, rest⟩
      · exact ⟨rfl, rfl, rfl, rfl⟩
      · exact ⟨rfl, rfl, rfl, rfl⟩
  · exact ⟨rfl, rfl, rfl, rfl⟩

/-- The hardware-error block touches none of the temperature fields, on both
its normal and its `TypeError` outcome. -/
lemma gcsHwStep_temp_fields (t : Transport) (servo_id : ℕ)
    (st s : CompleteStatus)
    (h : gcsHwStep t servo_id st = Except.ok s ∨
      gcsHwStep t servo_id st = Except.error s) :
    s.temperature = st.temperature ∧
    s.temperature_limit = st.temperature_limit ∧
    s.temperature_usage = st.temperature_usage ∧
    s.temp_warning_level = st.temp_warning_level := by
  rcases hr : read_hardware_error_status t servo_id with ⟨⟨hv, r, e⟩, tr⟩
  rcases h with h | h <;> simp only [gcsHwStep, hr] at h <;> split at h
  · rcases hv with _ | ⟨ev⟩
    · simp at h
    · simp only [Except.ok.injEq] at h
      subst h
      exact ⟨rfl, rfl, rfl, rfl⟩
  · simp only [Except.ok.injEq] at h
    subst h
    exact ⟨rfl, rfl, rfl, rfl⟩
  · rcases hv with _ | ⟨ev⟩
    · simp only [Except.error.injEq] at h
      subst h
      exact ⟨rfl, rfl, rfl, rfl⟩
    · simp at h
  · simp at h

/-- The temperature fields of the final status are those fixed by the
temperature and temperature-limit blocks: every later block preserves them. -/
lemma get_complete_status_temp_fields (t : Transport) (servo_id : ℕ)
    (st2 : CompleteStatus)
    (h : gcsLimitStep t servo_id (gcsTempStep t servo_id (gcsBasic t servo_id)).2
        (gcsTempStep t servo_id (gcsBasic t servo_id)).1 = Except.ok st2) :
    (get_complete_status t servo_id).temperature = st2.temperature ∧
    (get_complete_status t servo_id).temperature_limit = st2.temperature_limit ∧
    (get_complete_status t servo_id).temperature_usage = st2.temperature_usage ∧
    (get_complete_status t servo_id).temp_warning_level = st2.temp_warning_level := by
  obtain ⟨v1, v2, v3, v4⟩ := gcsVoltageStep_temp_fields t servo_id st2
  obtain ⟨c1, c2, c3, c4⟩ :=
    gcsCurrentStep_temp_fields t servo_id (gcsVoltageStep t servo_id st2)
  rcases hw : gcsHwStep t servo_id
      (gcsCurrentStep t servo_id (gcsVoltageStep t servo_id st2)) with s | s
  · obtain ⟨w1, w2, w3, w4⟩ := gcsHwStep_temp_fields t servo_id
      (gcsCurrentStep t servo_id (gcsVoltageStep t servo_id st2)) s (Or.inr hw)
    have hres : get_complete_status t servo_id = s := by
      simp [get_complete_status, gcsPipeline, h, hw]
    rw [hres]
    exact ⟨w1.trans (c1.trans v1), w2.trans (c2.trans v2),
      w3.trans (c3.trans v3), w4.trans (c4.trans v4)⟩
  · obtain ⟨w1, w2, w3, w4⟩ := gcsHwStep_temp_fields t servo_id
      (gcsCurrentStep t servo_id (gcsVoltageStep t servo_id st2)) s (Or.inl hw)
    obtain ⟨y1, y2, y3, y4⟩ := gcsSyncStep_temp_fields t servo_id s
    have hres : get_complete_status t servo_id = gcsSyncStep t servo_id s := by
      simp [get_complete_status, gcsPipeline, h, hw]
    rw [hres]
    exact ⟨y1.trans (w1.trans (c1.trans v1)), y2.trans (w2.trans (c2.trans v2)),
      y3.trans (w3.trans (c3.trans v3)), y4.trans (w4.trans (c4.trans v4))⟩

/-- Parsing a single byte unsigned gives the byte value. -/
lemma parse_temperature_single (b : ℕ) : parse_temperature [b] = (b : ℤ) := by
  simp [parse_temperature, bytes_to_int, List.getLast?, leValue]

/-- C9: when the present-temperature register reads successfully as exactly
0 and the temperature-limit read succeeds with a positive limit,
`get_complete_status` stores `temperature` and `temperature_limit` but omits
`temperature_usage` and `temp_warning_level`: the derivation is guarded on
the temperature value being truthy, not merely on the reads succeeding. -/
theorem get_complete_status_zero_temperature (t : Transport) (servo_id : ℕ)
    (L : ℕ) (hconn : t.connected = true)
    (h64 : t.readTxRx servo_id 64 1 = (some [0], 0, none))
    (h13 : t.readTxRx servo_id 13 1 = (some [L], 0, none))
    (hL : 0 < L) :
    (get_complete_status t servo_id).temperature = some (some 0) ∧
    (get_complete_status t servo_id).temperature_limit = some (some (L : ℤ)) ∧
    (get_complete_status t servo_id).temperature_usage = none ∧
    (get_complete_status t servo_id).temp_warning_level = none := by
  have hTemp : gcsTempStep t servo_id (gcsBasic t servo_id) =
      ({ gcsBasic t servo_id with temperature := some (some 0) }, some 0) := by
    simp [gcsTempStep, read_temperature, read_memory, hconn,
      MemoryMap.PRESENT_TEMPERATURE, h64, parse_temperature_single]
  have hLim : gcsLimitStep t servo_id (some 0)
        { gcsBasic t servo_id with temperature := some (some 0) } =
      Except.ok { gcsBasic t servo_id with
        temperature := some (some 0)
        temperature_limit := some (some (L : ℤ)) } := by
    simp [gcsLimitStep, read_temperature_limit, read_memory, hconn, h13,
      parse_temperature_single, pyTruthyInt]
  have h' : gcsLimitStep t servo_id
        (gcsTempStep t servo_id (gcsBasic t servo_id)).2
        (gcsTempStep t servo_id (gcsBasic t servo_id)).1 =
      Except.ok { gcsBasic t servo_id with
        temperature := some (some 0)
        temperature_limit := some (some (L : ℤ)) } := by
    rw [hTemp]
    exact hLim
  obtain ⟨e1, e2, e3, e4⟩ := get_complete_status_temp_fields t servo_id _ h'
  exact ⟨e1, e2, e3, e4⟩

/-- C9 witness: temperature 0, limit 70. -/
theorem get_complete_status_zero_temperature_witness :
    (get_complete_status mockTransportTempZero 1).temperature = some (some 0) ∧
    (get_complete_status mockTransportTempZero 1).temperature_limit =
      some (some (70 : ℤ)) ∧
    (get_complete_status mockTransportTempZero 1).temperature_usage = none ∧
    (get_complete_status mockTransportTempZero 1).temp_warning_level = none :=
  get_complete_status_zero_temperature mockTransportTempZero 1 70 rfl rfl rfl
    (by decide)

/-- C5 counterexample: both temperature reads succeed and the limit 70 is
positive, yet — the temperature being 0 — `get_complete_status` derives
neither `temperature_usage` nor `temp_warning_level`, against the claim that
successful reads with a positive limit suffice. -/
theorem temperature_usage_zero_temp_counterexample :
    (get_complete_status mockTransportTempZero 1).temperature = some (some 0) ∧
    (get_complete_status mockTransportTempZero 1).temperature_limit =
      some (some 70) ∧
    (0 : ℤ) < 70 ∧
    (get_complete_status mockTransportTempZero 1).temperature_usage = none ∧
    (get_complete_status mockTransportTempZero 1).temp_warning_level = none := by
  have h' : gcsLimitStep mockTransportTempZero 1
        (gcsTempStep mockTransportTempZero 1 (gcsBasic mockTransportTempZero 1)).2
        (gcsTempStep mockTransportTempZero 1 (gcsBasic mockTransportTempZero 1)).1 =
      Except.ok { gcsBasic mockTransportTempZero 1 with
        temperature := some (some 0)
        temperature_limit := some (some 70) } := rfl
  obtain ⟨e1, e2, e3, e4⟩ :=
    get_complete_status_temp_fields mockTransportTempZero 1 _ h'
  exact ⟨e1, e2, by decide, e3, e4⟩

/-- C5 (amended): when the temperature read succeeds with a non-zero value
and the limit read succeeds with a positive limit, `get_complete_status`
derives `temperature_usage = temperature ÷ temperature_limit` and classifies
`temp_warning_level` as critical at ratio ≥ 0.9, warning at ≥ 0.8, caution
at ≥ 0.6 and normal below, each boundary falling into the higher band. -/
theorem get_complete_status_temperature_classification (t : Transport)
    (servo_id : ℕ) (v L : ℕ) (hconn : t.connected = true)
    (h64 : t.readTxRx servo_id 64 1 = (some [v], 0, none))
    (h13 : t.readTxRx servo_id 13 1 = (some [L], 0, none))
    (hv : v ≠ 0) (hL : 0 < L) :
    (get_complete_status t servo_id).temperature_usage =
      some ((v : ℚ) / (L : ℚ)) ∧
    (get_complete_status t servo_id).temp_warning_level =
      some (if (9 : ℚ) / 10 ≤ (v : ℚ) / (L : ℚ) then "critical"
        else if (8 : ℚ) / 10 ≤ (v : ℚ) / (L : ℚ) then "warning"
        else if (6 : ℚ) / 10 ≤ (v : ℚ) / (L : ℚ) then "caution"
        else "normal") := by
  have hvz : ((v : ℕ) : ℤ) ≠ 0 := by exact_mod_cast hv
  have hLz : (0 : ℤ) < ((L : ℕ) : ℤ) := by exact_mod_cast hL
  have hTemp : gcsTempStep t servo_id (gcsBasic t servo_id) =
      ({ gcsBasic t servo_id with temperature := some (some (v : ℤ)) },
        some (v : ℤ)) := by
    simp [gcsTempStep, read_temperature, read_memory, hconn,
      MemoryMap.PRESENT_TEMPERATURE, h64, parse_temperature_single]
  have hLim : gcsLimitStep t servo_id (some (v : ℤ))
        { gcsBasic t servo_id with temperature := some (some (v : ℤ)) } =
      Except.ok { gcsBasic t servo_id with
        temperature := some (some (v : ℤ))
        temperature_limit := some (some (L : ℤ))
        temperature_usage := some ((v : ℚ) / (L : ℚ))
        temp_warning_level :=
          some (if (9 : ℚ) / 10 ≤ (v : ℚ) / (L : ℚ) then "critical"
            else if (8 : ℚ) / 10 ≤ (v : ℚ) / (L : ℚ) then "warning"
            else if (6 : ℚ) / 10 ≤ (v : ℚ) / (L : ℚ) then "caution"
            else "normal") } := by
    simp [gcsLimitStep, read_temperature_limit, read_memory, hconn, h13,
      parse_temperature_single, pyTruthyInt, hvz, hLz]
  have h' : gcsLimitStep t servo_id
        (gcsTempStep t servo_id (gcsBasic t servo_id)).2
        (gcsTempStep t servo_id (gcsBasic t servo_id)).1 =
      Except.ok { gcsBasic t servo_id with
        temperature := some (some (v : ℤ))
        temperature_limit := some (some (L : ℤ))
        temperature_usage := some ((v : ℚ) / (L : ℚ))
        temp_warning_level :=
          some (if (9 : ℚ) / 10 ≤ (v : ℚ) / (L : ℚ) then "critical"
            else if (8 : ℚ) / 10 ≤ (v : ℚ) / (L : ℚ) then "warning"
            else if (6 : ℚ) / 10 ≤ (v : ℚ) / (L : ℚ) then "caution"
            else "normal") } := by
    rw [hTemp]
    exact hLim
  obtain ⟨e1, e2, e3, e4⟩ := get_complete_status_temp_fields t servo_id _ h'
  exact ⟨e3, e4⟩

/-- C5 witness for the amended statement: temperature 9, limit 10 — the
ratio is exactly the 0.9 boundary, classified critical. -/
theorem get_complete_status_temperature_classification_witness :
    (get_complete_status mockTransportTempBoundary 1).temperature_usage =
      some (((9 : ℕ) : ℚ) / ((10 : ℕ) : ℚ)) ∧
    (get_complete_status mockTransportTempBoundary 1).temp_warning_level =
      some (if (9 : ℚ) / 10 ≤ ((9 : ℕ) : ℚ) / ((10 : ℕ) : ℚ) then "critical"
        else if (8 : ℚ) / 10 ≤ ((9 : ℕ) : ℚ) / ((10 : ℕ) : ℚ) then "warning"
        else if (6 : ℚ) / 10 ≤ ((9 : ℕ) : ℚ) / ((10 : ℕ) : ℚ) then "caution"
        else "normal") :=
  get_complete_status_temperature_classification mockTransportTempBoundary 1 9 10
    rfl rfl rfl (by decide) (by decide)

end RoboController
